import Mathlib

/-!
Verification model of flutter_runner::VulkanSurface
(src/shell/platform/fuchsia/flutter/vulkan_surface.cc).

The surface's observable state (the data members of the C++ class that the
claims talk about) is embedded as the record SurfaceState.  External
collaborators — the Vulkan driver, the Zircon kernel (event creation,
duplication and signaling) and sysmem — are fallible synchronous calls; each
operation takes an environment record giving the success/failure outcome of
every such call it performs, exactly in the order the source performs them
(short-circuiting included).  Commands enqueued with the scenic session are
collected into a SessionCmd list.  VulkanSurface::Reset additionally returns
the ordered list of steps it executes (ResetStep), so that ordering claims
(callback slot cleared before the callback is invoked, callback invoked last)
are statable.

Machine integers: age_ is a C++ size_t, so its increment is taken modulo
2^64; size_history_index_ is kept below kSizeHistorySize by the source's own
modulus; the memoryTypeBits words are uint32 bit masks, represented as Nat
(the source only ANDs them and takes a count-trailing-zeros).
-/

namespace VulkanSurfaceModel

/-- Skia integer size (SkISize): a pair of int32 width/height.  Only
construction, width/height projection and isEmpty are used by the source. -/
structure SkISize where
  width : Int
  height : Int
deriving DecidableEq, Repr

def SkISize.Make (w h : Int) : SkISize := ⟨w, h⟩

def SkISize.MakeEmpty : SkISize := ⟨0, 0⟩

/-- SkISize::isEmpty: true when width or height is non-positive. -/
def SkISize.isEmpty (s : SkISize) : Bool := s.width ≤ 0 || s.height ≤ 0

/-- Modelled from the spec: the size-history ring length kSizeHistorySize is
declared in the class header (vulkan_surface.h), which is not part of the
sources here; the spec describes it as a fixed small constant, e.g. 3.  All
claims depend only on it being a fixed positive constant. -/
def kSizeHistorySize : Nat := 3

/-- Modulus of the C++ size_t type used for the age_ counter. -/
def kSizeTMod : Nat := 2 ^ 64

/-- Commands enqueued with the scenic::Session (the compositor session). -/
inductive SessionCmd where
  | registerBufferCollection (bufferId : Nat)
  | createImage (imageId : Nat) (width height : Int) (bufferId : Nat) (index : Nat)
  | enqueueAcquireFence
  | enqueueReleaseFence
  | releaseResource (id : Nat)
  | deregisterBufferCollection (id : Nat)
deriving DecidableEq, Repr

/-- The data members of VulkanSurface that the claims observe.  Callbacks
(std::function values) are identified by Nat tokens; the null std::function
is Option.none.  sk_surface_ is modelled by the pixel size it was created
with (SkSurface::width/height return exactly the render-target size passed to
MakeFromBackendRenderTarget); a null sk_surface_ is Option.none.
Initial values (valid_ = false, image_id_ = 0, buffer_id_ = 0, age_ = 0,
size_history_index_ = 0, null callback) are the in-class initializers from
the class header, as described by the spec's data model. -/
structure SurfaceState where
  valid : Bool
  bufferId : Nat
  imageId : Nat
  skSurface : Option SkISize
  pendingCallback : Option Nat
  age : Nat
  sizeHistory : List SkISize
  sizeHistoryIndex : Nat
  acquireEventSignaled : Bool
  releaseEventSignaled : Bool
  acquireSemaphore : Bool
  commandBuffer : Bool
  waitArmed : Bool
  memoryTypeIndex : Option Nat
deriving DecidableEq, Repr

/-- State of a freshly constructed (not yet set up) VulkanSurface object. -/
def SurfaceState.init : SurfaceState where
  valid := false
  bufferId := 0
  imageId := 0
  skSurface := none
  pendingCallback := none
  age := 0
  sizeHistory := List.replicate kSizeHistorySize SkISize.MakeEmpty
  sizeHistoryIndex := 0
  acquireEventSignaled := false
  releaseEventSignaled := false
  acquireSemaphore := false
  commandBuffer := false
  waitArmed := false
  memoryTypeIndex := none

namespace VulkanSurface

/-- VulkanSurface::IsValid (const): pure read of valid_. -/
def IsValid (s : SurfaceState) : Bool := s.valid

/-- VulkanSurface::GetSize (const): (0,0) when invalid, otherwise the
sk_surface_ dimensions.  Both queries are const methods: in this model they
are plain functions of the state, so they cannot change it.  The getD arm is
the (never exercised on constructed surfaces) null sk_surface_ dereference. -/
def GetSize (s : SurfaceState) : SkISize :=
  if s.valid = false then SkISize.Make 0 0
  else s.skSurface.getD (SkISize.Make 0 0)

/-- VulkanSurface::AdvanceAndGetAge: record GetSize() into the ring buffer at
the current index, advance the index modulo kSizeHistorySize, increment age_
(a size_t) and return the new age. -/
def AdvanceAndGetAge (s : SurfaceState) : SurfaceState × Nat :=
  let s1 := { s with sizeHistory := s.sizeHistory.set s.sizeHistoryIndex (GetSize s) }
  let s2 := { s1 with sizeHistoryIndex := (s1.sizeHistoryIndex + 1) % kSizeHistorySize }
  let s3 := { s2 with age := (s2.age + 1) % kSizeTMod }
  (s3, s3.age)

/-- Outcomes of the two zx_handle_duplicate calls made by
FlushSessionAcquireAndReleaseEvents (acquire_event_ first, then
release_event_, with C++ short-circuit evaluation). -/
structure FlushEnv where
  dupAcquireOk : Bool
  dupReleaseOk : Bool
deriving DecidableEq, Repr

/-- VulkanSurface::FlushSessionAcquireAndReleaseEvents: duplicate both fence
events; on any duplication failure return false having touched nothing; on
success enqueue the duplicated acquire and release fences with the session,
zero age_ and return true. -/
def FlushSessionAcquireAndReleaseEvents (env : FlushEnv) (s : SurfaceState) :
    SurfaceState × List SessionCmd × Bool :=
  if env.dupAcquireOk = false ∨ env.dupReleaseOk = false then
    (s, [], false)
  else
    ({ s with age := 0 },
     [SessionCmd.enqueueAcquireFence, SessionCmd.enqueueReleaseFence], true)

/-- Result of VulkanSurface::SignalWritesFinished.  invokedImmediately means
the supplied callback was run synchronously inside the call (the invalid
path); fatalDoubleRegistration is the dart_utils::Check abort. -/
inductive SignalResult where
  | invokedImmediately (c : Nat)
  | registered
  | fatalDoubleRegistration
deriving DecidableEq, Repr

/-- VulkanSurface::SignalWritesFinished: on an invalid surface run the
callback at once and register nothing; otherwise fatally assert if a callback
is already pending, else store the callback in the single pending slot. -/
def SignalWritesFinished (s : SurfaceState) (c : Nat) : SurfaceState × SignalResult :=
  if s.valid = false then (s, SignalResult.invokedImmediately c)
  else if s.pendingCallback.isSome then (s, SignalResult.fatalDoubleRegistration)
  else ({ s with pendingCallback := some c }, SignalResult.registered)

/-- Outcomes of the three fallible calls inside
VulkanSurface::SemaphoreFromEvent: zx event duplication, vkCreateSemaphore,
vkImportSemaphoreZirconHandleFUCHSIA. -/
structure SemEnv where
  duplicateOk : Bool
  createSemaphoreOk : Bool
  importOk : Bool
deriving DecidableEq, Repr

/-- VulkanSurface::SemaphoreFromEvent: returns whether a valid semaphore
handle was produced (every fallible step must succeed; any failure returns
the null VulkanHandle). -/
def SemaphoreFromEvent (e : SemEnv) : Bool :=
  e.duplicateOk && e.createSemaphoreOk && e.importOk

/-- Outcomes of the fallible calls inside VulkanSurface::Reset: re-arming
(clearing ZX_EVENT_SIGNALED on) the acquire and release events, and the
SemaphoreFromEvent recreation.  The release re-arm is only attempted when
the acquire re-arm succeeded (C++ short-circuit). -/
structure ResetEnv where
  acquireSignalOk : Bool
  releaseSignalOk : Bool
  sem : SemEnv
deriving DecidableEq, Repr

/-- The ordered steps VulkanSurface::Reset executes, in source order. -/
inductive ResetStep where
  | rearmEvents
  | markInvalid
  | waitCommandBufferFence
  | clearCommandBuffer
  | resetFence
  | recreateAcquireSemaphore
  | armReleaseWait
  | clearCallbackSlot
  | invokeCallback (c : Nat)
deriving DecidableEq, Repr

/-- Whether a ResetStep is a callback invocation. -/
def ResetStep.isInvoke : ResetStep → Bool
  | ResetStep.invokeCallback _ => true
  | ResetStep.rearmEvents => false
  | ResetStep.markInvalid => false
  | ResetStep.waitCommandBufferFence => false
  | ResetStep.clearCommandBuffer => false
  | ResetStep.resetFence => false
  | ResetStep.recreateAcquireSemaphore => false
  | ResetStep.armReleaseWait => false
  | ResetStep.clearCallbackSlot => false

/-- VulkanSurface::Reset: (a) re-arm both events, marking the surface invalid
if either re-arm fails (no crash — failure only logs and degrades); (b) wait
on the command-buffer fence and clear command_buffer_ if one is outstanding;
(c) reset the fence; (d) recreate the acquire semaphore (failure only logs);
(e) re-arm the async wait on the release event; (f) move the pending callback
out of its slot, null the slot, and invoke the moved callback last, if any.
Returns the post state and the ordered step trace. -/
def Reset (env : ResetEnv) (s : SurfaceState) : SurfaceState × List ResetStep :=
  let rearmOk := env.acquireSignalOk && env.releaseSignalOk
  let s1 : SurfaceState :=
    { s with
      acquireEventSignaled :=
        if env.acquireSignalOk then false else s.acquireEventSignaled,
      releaseEventSignaled := if rearmOk then false else s.releaseEventSignaled,
      valid := if rearmOk then s.valid else false }
  let fenceSteps : List ResetStep :=
    if s1.commandBuffer then
      [ResetStep.waitCommandBufferFence, ResetStep.clearCommandBuffer]
    else []
  let s2 := { s1 with commandBuffer := false }
  let s3 := { s2 with acquireSemaphore := SemaphoreFromEvent env.sem }
  let s4 := { s3 with waitArmed := true }
  let callback := s4.pendingCallback
  let s5 := { s4 with pendingCallback := none }
  let callbackSteps : List ResetStep :=
    match callback with
    | some c => [ResetStep.invokeCallback c]
    | none => []
  (s5,
   ([ResetStep.rearmEvents] ++ (if rearmOk then [] else [ResetStep.markInvalid]) ++
      fenceSteps ++
      [ResetStep.resetFence, ResetStep.recreateAcquireSemaphore,
       ResetStep.armReleaseWait, ResetStep.clearCallbackSlot]) ++
   callbackSteps)

/-- VulkanSurface::OnHandleReady: the async wait callback on the release
event.  Returns immediately when the wait status is not ZX_OK, otherwise runs
Reset.  (The FML_DCHECK on signal->observed is a debug check on the kernel
packet, with no state effect.) -/
def OnHandleReady (statusOk : Bool) (env : ResetEnv) (s : SurfaceState) :
    SurfaceState × List ResetStep :=
  if statusOk then Reset env s else (s, [])

/-- Outcome class of VulkanSurface::AllocateDeviceMemory: ordinary boolean
failure, success, or the FML_DCHECK(bits != 0) fatal assertion on an empty
memory-type intersection. -/
inductive AllocResult where
  | ok
  | failed
  | fatalAssert
deriving DecidableEq, Repr

/-- Outcomes of the fallible external calls made during
AllocateDeviceMemory / CreateVulkanImage / SetupSkiaSurface, in source
order, plus the two memory-type bit masks reported back by the driver
(vkGetImageMemoryRequirements) and by the collection
(vkGetBufferCollectionPropertiesFUCHSIA). -/
structure AllocEnv where
  allocateSharedCollectionOk : Bool
  duplicateTokenOk : Bool
  syncTokenOk : Bool
  createBufferCollectionOk : Bool
  setConstraintsOk : Bool
  createImageOk : Bool
  memoryTypeBits : Nat
  getPropertiesOk : Bool
  collectionMemoryTypeBits : Nat
  allocateMemoryOk : Bool
  bindImageMemoryOk : Bool
  contextNonNull : Bool
  makeSkSurfaceOk : Bool
deriving DecidableEq, Repr

/-- VulkanSurface::CreateVulkanImage: sets collection constraints then
creates the VkImage; succeeds iff both driver calls succeed (the trailing
vkGetImageMemoryRequirements cannot fail and fills the requirements whose
memoryTypeBits the environment reports). -/
def CreateVulkanImage (env : AllocEnv) : Bool :=
  env.setConstraintsOk && env.createImageOk

/-- Fuel-driven helper for ctz; the fuel is an upper bound on the argument,
so it never runs out on a nonzero argument. -/
def ctzAux : Nat → Nat → Nat
  | 0, _ => 0
  | fuel + 1, n =>
    if n = 0 then 0
    else if n % 2 = 1 then 0
    else ctzAux fuel (n / 2) + 1

/-- Count of trailing zero bits, as computed by __builtin_ctz on the nonzero
intersection mask (the source guards bits != 0 with a fatal assertion before
this is used). -/
def ctz (n : Nat) : Nat := ctzAux n n

/-- VulkanSurface::SetupSkiaSurface: fails on a null GrDirectContext or when
MakeFromBackendRenderTarget yields no surface (or one without a canvas);
otherwise stores sk_surface_, created at exactly the requested size. -/
def SetupSkiaSurface (env : AllocEnv) (size : SkISize) (s : SurfaceState) :
    SurfaceState × Bool :=
  if env.contextNonNull = false then (s, false)
  else if env.makeSkSurfaceOk = false then (s, false)
  else ({ s with skSurface := some size }, true)

/-- Result bundle of AllocateDeviceMemory: post state, session commands
enqueued, and the outcome class. -/
structure AllocOutcome where
  state : SurfaceState
  cmds : List SessionCmd
  result : AllocResult
deriving DecidableEq, Repr

/-- The tail of VulkanSurface::AllocateDeviceMemory, from the memory-type
intersection on: intersect the driver and collection memoryTypeBits —
FML_DCHECK(bits != 0) is the fatal assertion on an empty intersection —
pick memoryTypeIndex = ctz(bits) for the VkMemoryAllocateInfo (this is the
memory type passed to vkAllocateMemory); allocate and bind the memory;
finish with SetupSkiaSurface. -/
def ChooseMemoryTypeAndBind (env : AllocEnv) (size : SkISize)
    (cmds : List SessionCmd) (s1 : SurfaceState) : AllocOutcome :=
  let bits := env.memoryTypeBits &&& env.collectionMemoryTypeBits
  if bits = 0 then ⟨s1, cmds, AllocResult.fatalAssert⟩
  else
    let s2 := { s1 with memoryTypeIndex := some (ctz bits) }
    if env.allocateMemoryOk = false then ⟨s2, cmds, AllocResult.failed⟩
    else if env.bindImageMemoryOk = false then ⟨s2, cmds, AllocResult.failed⟩
    else
      let t := SetupSkiaSurface env size s2
      ⟨t.1, cmds, if t.2 then AllocResult.ok else AllocResult.failed⟩

/-- VulkanSurface::AllocateDeviceMemory, in source order: reject an empty
size; allocate/duplicate/sync the sysmem tokens; register the scenic token
under buffer_id (recording buffer_id_); import the vulkan token as a buffer
collection; create the image (CreateVulkanImage); query collection
properties; then intersect memory types, allocate, bind, and set up the Skia
surface (ChooseMemoryTypeAndBind). -/
def AllocateDeviceMemory (env : AllocEnv) (size : SkISize) (bufferId : Nat)
    (s : SurfaceState) : AllocOutcome :=
  if size.isEmpty then ⟨s, [], AllocResult.failed⟩
  else if env.allocateSharedCollectionOk = false then ⟨s, [], AllocResult.failed⟩
  else if env.duplicateTokenOk = false then ⟨s, [], AllocResult.failed⟩
  else if env.syncTokenOk = false then ⟨s, [], AllocResult.failed⟩
  else
    let s1 := { s with bufferId := bufferId }
    let cmds := [SessionCmd.registerBufferCollection bufferId]
    if env.createBufferCollectionOk = false then ⟨s1, cmds, AllocResult.failed⟩
    else if CreateVulkanImage env = false then ⟨s1, cmds, AllocResult.failed⟩
    else if env.getPropertiesOk = false then ⟨s1, cmds, AllocResult.failed⟩
    else ChooseMemoryTypeAndBind env size cmds s1

/-- Outcomes of the fallible calls in VulkanSurface::CreateFences: creating
the acquire event, SemaphoreFromEvent on it, creating the release event.
(vulkan_provider_.CreateFence() is not checked by the source.) -/
structure FenceEnv where
  createAcquireEventOk : Bool
  sem : SemEnv
  createReleaseEventOk : Bool
deriving DecidableEq, Repr

/-- VulkanSurface::CreateFences: create the acquire event (unsignaled),
derive its semaphore, create the release event (unsignaled) and the
command-buffer fence. -/
def CreateFences (env : FenceEnv) (s : SurfaceState) : SurfaceState × Bool :=
  if env.createAcquireEventOk = false then (s, false)
  else
    let semOk := SemaphoreFromEvent env.sem
    let s1 := { s with acquireEventSignaled := false, acquireSemaphore := semOk }
    if semOk = false then (s1, false)
    else if env.createReleaseEventOk = false then (s1, false)
    else ({ s1 with releaseEventSignaled := false }, true)

/-- VulkanSurface::PushSessionImageSetupOps: allocate a resource id if none
yet, then enqueue the create-image command with the sk_surface_ dimensions,
the buffer id and sub-index 0. -/
def PushSessionImageSetupOps (resourceId : Nat) (s : SurfaceState) :
    SurfaceState × List SessionCmd :=
  let s1 := if s.imageId = 0 then { s with imageId := resourceId } else s
  let sz := s1.skSurface.getD (SkISize.Make 0 0)
  (s1, [SessionCmd.createImage s1.imageId sz.width sz.height s1.bufferId 0])

/-- VulkanSurface::~VulkanSurface: enqueue release of the image resource iff
image_id_ is nonzero; deregister the buffer collection iff buffer_id_ is
nonzero; the two conditions are checked independently.  (The wait is then
cancelled and its handle cleared — no session command.) -/
def destructor (s : SurfaceState) : List SessionCmd :=
  (if s.imageId ≠ 0 then [SessionCmd.releaseResource s.imageId] else []) ++
    (if s.bufferId ≠ 0 then [SessionCmd.deregisterBufferCollection s.bufferId] else [])

/-- Environment of the whole constructor: the AllocateDeviceMemory calls, the
CreateFences calls, the resource id handed out by session->AllocResourceId,
and the calls of the constructor-time Reset. -/
structure CtorEnv where
  alloc : AllocEnv
  fences : FenceEnv
  resourceId : Nat
  reset : ResetEnv
deriving DecidableEq, Repr

/-- Whether the constructor ran to completion or died on the fatal
assertion inside AllocateDeviceMemory. -/
inductive CtorResult where
  | done
  | fatal
deriving DecidableEq, Repr

/-- Result bundle of the constructor. -/
structure CtorOutcome where
  state : SurfaceState
  cmds : List SessionCmd
  result : CtorResult
deriving DecidableEq, Repr

/-- VulkanSurface::VulkanSurface: AllocateDeviceMemory, then CreateFences,
then PushSessionImageSetupOps, fill the size history with empty sizes,
configure the release-event wait, Reset, and finally set valid_ = true.
Early returns leave valid_ = false. -/
def construct (env : CtorEnv) (size : SkISize) (bufferId : Nat) : CtorOutcome :=
  let a := AllocateDeviceMemory env.alloc size bufferId SurfaceState.init
  if a.result = AllocResult.fatalAssert then ⟨a.state, a.cmds, CtorResult.fatal⟩
  else if a.result = AllocResult.failed then ⟨a.state, a.cmds, CtorResult.done⟩
  else
    let f := CreateFences env.fences a.state
    if f.2 = false then ⟨f.1, a.cmds, CtorResult.done⟩
    else
      let p := PushSessionImageSetupOps env.resourceId f.1
      let s3 := { p.1 with sizeHistory := List.replicate kSizeHistorySize SkISize.MakeEmpty }
      let r := Reset env.reset s3
      ⟨{ r.1 with valid := true }, a.cmds ++ p.2, CtorResult.done⟩

/-! Helper lemmas shared by the claim theorems. -/

/-- Full characterization of the state after Reset. -/
theorem Reset_fst (env : ResetEnv) (s : SurfaceState) :
    (Reset env s).1 =
      { s with
        valid := if env.acquireSignalOk && env.releaseSignalOk then s.valid else false,
        acquireEventSignaled :=
          if env.acquireSignalOk then false else s.acquireEventSignaled,
        releaseEventSignaled :=
          if env.acquireSignalOk && env.releaseSignalOk then false
          else s.releaseEventSignaled,
        commandBuffer := false,
        acquireSemaphore := SemaphoreFromEvent env.sem,
        waitArmed := true,
        pendingCallback := none } := rfl

/-- A successful flush zeroes age_ and changes nothing else. -/
theorem flush_true_fst (env : FlushEnv) (s : SurfaceState)
    (h : (FlushSessionAcquireAndReleaseEvents env s).2.2 = true) :
    (FlushSessionAcquireAndReleaseEvents env s).1 = { s with age := 0 } := by
  by_cases hc : env.dupAcquireOk = false ∨ env.dupReleaseOk = false
  · simp [FlushSessionAcquireAndReleaseEvents, hc] at h
  · simp [FlushSessionAcquireAndReleaseEvents, hc]

/-- With enough fuel, ctzAux of a nonzero mask indexes a set bit. -/
theorem ctzAux_testBit (fuel : Nat) :
    ∀ n, n ≠ 0 → n ≤ fuel → Nat.testBit n (ctzAux fuel n) = true := by
  induction fuel with
  | zero => intro n h hle; exact absurd (Nat.le_zero.mp hle) h
  | succ fuel ih =>
    intro n h hle
    unfold ctzAux
    rw [if_neg h]
    by_cases h1 : n % 2 = 1
    · rw [if_pos h1]
      simp [Nat.testBit_zero, h1]
    · rw [if_neg h1]
      rw [Nat.testBit_add_one]
      exact ih (n / 2) (by omega) (by omega)

/-- The trailing-zero count of a nonzero mask indexes a set bit. -/
theorem ctz_testBit (n : Nat) (h : n ≠ 0) : Nat.testBit n (ctz n) = true :=
  ctzAux_testBit n n h (Nat.le_refl n)

/-- ChooseMemoryTypeAndBind never touches valid_. -/
theorem choose_valid (env : AllocEnv) (size : SkISize) (cmds : List SessionCmd)
    (s1 : SurfaceState) :
    (ChooseMemoryTypeAndBind env size cmds s1).state.valid = s1.valid := by
  unfold ChooseMemoryTypeAndBind SetupSkiaSurface
  by_cases hb : env.memoryTypeBits &&& env.collectionMemoryTypeBits = 0
  · rw [if_pos hb]
  · rw [if_neg hb]
    split_ifs <;> rfl

/-- When ChooseMemoryTypeAndBind succeeds, it has recorded the chosen memory
type and the Skia surface at the requested size, and nothing else. -/
theorem choose_ok_state (env : AllocEnv) (size : SkISize) (cmds : List SessionCmd)
    (s1 : SurfaceState)
    (h : (ChooseMemoryTypeAndBind env size cmds s1).result = AllocResult.ok) :
    (ChooseMemoryTypeAndBind env size cmds s1).state =
      { s1 with
        memoryTypeIndex :=
          some (ctz (env.memoryTypeBits &&& env.collectionMemoryTypeBits)),
        skSurface := some size } := by
  unfold ChooseMemoryTypeAndBind SetupSkiaSurface at h ⊢
  by_cases hb : env.memoryTypeBits &&& env.collectionMemoryTypeBits = 0
  · rw [if_pos hb] at h
    exact AllocResult.noConfusion h
  · rw [if_neg hb] at h ⊢
    split_ifs at h ⊢ <;> first
      | rfl
      | exact AllocResult.noConfusion h

/-- AllocateDeviceMemory never touches valid_. -/
theorem alloc_valid (env : AllocEnv) (size : SkISize) (b : Nat) (s : SurfaceState) :
    (AllocateDeviceMemory env size b s).state.valid = s.valid := by
  unfold AllocateDeviceMemory
  split_ifs <;> first
    | rfl
    | exact choose_valid env size _ _

/-- When AllocateDeviceMemory succeeds it has recorded the buffer id, the
chosen memory type and the Skia surface at the requested size, and nothing
else. -/
theorem alloc_ok_state (env : AllocEnv) (size : SkISize) (b : Nat) (s : SurfaceState)
    (h : (AllocateDeviceMemory env size b s).result = AllocResult.ok) :
    (AllocateDeviceMemory env size b s).state =
      { s with
        bufferId := b,
        memoryTypeIndex :=
          some (ctz (env.memoryTypeBits &&& env.collectionMemoryTypeBits)),
        skSurface := some size } := by
  unfold AllocateDeviceMemory at h ⊢
  split_ifs at h ⊢ <;> first
    | exact AllocResult.noConfusion h
    | rw [choose_ok_state env size _ _ h]

/-- When AllocateDeviceMemory succeeds, sk_surface_ holds the requested
size. -/
theorem alloc_ok_skSurface (env : AllocEnv) (size : SkISize) (b : Nat)
    (s : SurfaceState)
    (h : (AllocateDeviceMemory env size b s).result = AllocResult.ok) :
    (AllocateDeviceMemory env size b s).state.skSurface = some size := by
  rw [alloc_ok_state env size b s h]

/-- CreateFences never touches valid_. -/
theorem createFences_valid (env : FenceEnv) (s : SurfaceState) :
    (CreateFences env s).1.valid = s.valid := by
  simp only [CreateFences]
  split_ifs <;> rfl

/-- CreateFences never touches sk_surface_. -/
theorem createFences_skSurface (env : FenceEnv) (s : SurfaceState) :
    (CreateFences env s).1.skSurface = s.skSurface := by
  simp only [CreateFences]
  split_ifs <;> rfl

/-- PushSessionImageSetupOps never touches valid_. -/
theorem push_valid (resourceId : Nat) (s : SurfaceState) :
    (PushSessionImageSetupOps resourceId s).1.valid = s.valid := by
  simp only [PushSessionImageSetupOps]
  split_ifs <;> rfl

/-- PushSessionImageSetupOps never touches sk_surface_. -/
theorem push_skSurface (resourceId : Nat) (s : SurfaceState) :
    (PushSessionImageSetupOps resourceId s).1.skSurface = s.skSurface := by
  simp only [PushSessionImageSetupOps]
  split_ifs <;> rfl

/-- A constructed surface that reports valid has the Skia surface at the
requested size and an empty pending-callback slot. -/
theorem construct_valid_state (env : CtorEnv) (size : SkISize) (b : Nat)
    (hvalid : (construct env size b).state.valid = true) :
    (construct env size b).state.skSurface = some size ∧
    (construct env size b).state.pendingCallback = none := by
  simp only [construct] at hvalid ⊢
  split_ifs at hvalid ⊢ with h1 h2 h3
  · rw [alloc_valid] at hvalid
    exact absurd hvalid (by simp [SurfaceState.init])
  · rw [alloc_valid] at hvalid
    exact absurd hvalid (by simp [SurfaceState.init])
  · rw [createFences_valid, alloc_valid] at hvalid
    exact absurd hvalid (by simp [SurfaceState.init])
  · have ha : (AllocateDeviceMemory env.alloc size b SurfaceState.init).result =
        AllocResult.ok := by
      rcases hr : (AllocateDeviceMemory env.alloc size b SurfaceState.init).result
      · rfl
      · exact absurd hr h2
      · exact absurd hr h1
    constructor
    · simp [Reset_fst, push_skSurface, createFences_skSurface,
        alloc_ok_skSurface env.alloc size b SurfaceState.init ha]
    · simp [Reset_fst]

/-- The ordered step trace of Reset, written out. -/
theorem Reset_snd (env : ResetEnv) (s : SurfaceState) :
    (Reset env s).2 =
      ([ResetStep.rearmEvents] ++
        (if env.acquireSignalOk && env.releaseSignalOk then []
         else [ResetStep.markInvalid]) ++
        (if s.commandBuffer then
          [ResetStep.waitCommandBufferFence, ResetStep.clearCommandBuffer]
         else []) ++
        [ResetStep.resetFence, ResetStep.recreateAcquireSemaphore,
         ResetStep.armReleaseWait, ResetStep.clearCallbackSlot]) ++
      (match s.pendingCallback with
       | some c => [ResetStep.invokeCallback c]
       | none => []) := rfl

/-- An environment in which every external call succeeds, for concrete
evaluations; the driver reports memory types 12 (0b1100) and the collection
reports 10 (0b1010), whose intersection is 8 (bit 3). -/
def semEnvOk : SemEnv := ⟨true, true, true⟩

/-- AllocateDeviceMemory environment with every call succeeding. -/
def allocEnvOk : AllocEnv :=
  ⟨true, true, true, true, true, true, 12, true, 10, true, true, true, true⟩

/-- Constructor environment with every call succeeding. -/
def ctorEnvOk : CtorEnv :=
  ⟨allocEnvOk, ⟨true, semEnvOk, true⟩, 1, ⟨true, true, semEnvOk⟩⟩

/-! Claim theorems. -/

/-- C2: FlushSessionAcquireAndReleaseEvents returns false with no session
command and a completely unchanged surface (age_ included) when duplication
of either fence event fails; when both duplications succeed it enqueues the
duplicated acquire and release fences with the session, zeroes age_ and
nothing else, and returns true. -/
theorem flush_session_contract (env : FlushEnv) (s : SurfaceState) :
    ((env.dupAcquireOk = false ∨ env.dupReleaseOk = false) →
      FlushSessionAcquireAndReleaseEvents env s = (s, [], false)) ∧
    (env.dupAcquireOk = true → env.dupReleaseOk = true →
      FlushSessionAcquireAndReleaseEvents env s =
        ({ s with age := 0 },
         [SessionCmd.enqueueAcquireFence, SessionCmd.enqueueReleaseFence],
         true)) := by
  constructor
  · intro h
    simp [FlushSessionAcquireAndReleaseEvents, h]
  · intro h1 h2
    simp [FlushSessionAcquireAndReleaseEvents, h1, h2]

/-- Witness for C2 at a concrete failing environment. -/
theorem flush_session_contract_witness :
    FlushSessionAcquireAndReleaseEvents ⟨false, true⟩ SurfaceState.init =
      (SurfaceState.init, [], false) :=
  (flush_session_contract ⟨false, true⟩ SurfaceState.init).1 (Or.inl rfl)

/-- C3: AdvanceAndGetAge records the current size into the ring buffer at
the current index, advances the index modulo kSizeHistorySize, increments
age_ (a size_t) and returns the new age; right after a successful flush it
returns 1, and three consecutive calls after a flush return 1, 2, 3. -/
theorem advance_and_get_age_contract (env : FlushEnv) (s : SurfaceState)
    (hflush : (FlushSessionAcquireAndReleaseEvents env s).2.2 = true) :
    (∀ t : SurfaceState,
      (AdvanceAndGetAge t).1.sizeHistory =
        t.sizeHistory.set t.sizeHistoryIndex (GetSize t) ∧
      (AdvanceAndGetAge t).1.sizeHistoryIndex =
        (t.sizeHistoryIndex + 1) % kSizeHistorySize ∧
      (AdvanceAndGetAge t).1.age = (t.age + 1) % kSizeTMod ∧
      (AdvanceAndGetAge t).2 = (AdvanceAndGetAge t).1.age) ∧
    (AdvanceAndGetAge (FlushSessionAcquireAndReleaseEvents env s).1).2 = 1 ∧
    (AdvanceAndGetAge (AdvanceAndGetAge
      (FlushSessionAcquireAndReleaseEvents env s).1).1).2 = 2 ∧
    (AdvanceAndGetAge (AdvanceAndGetAge (AdvanceAndGetAge
      (FlushSessionAcquireAndReleaseEvents env s).1).1).1).2 = 3 := by
  rw [flush_true_fst env s hflush]
  refine ⟨fun t => ⟨rfl, rfl, rfl, rfl⟩, ?_, ?_, ?_⟩ <;>
    norm_num [AdvanceAndGetAge, kSizeTMod]

/-- Witness for C3 at a concrete successful flush. -/
theorem advance_and_get_age_contract_witness :
    (AdvanceAndGetAge (FlushSessionAcquireAndReleaseEvents ⟨true, true⟩
      SurfaceState.init).1).2 = 1 :=
  (advance_and_get_age_contract ⟨true, true⟩ SurfaceState.init (by decide)).2.1

/-- C4: on a valid surface with no pending callback, SignalWritesFinished
registers the callback; calling it again without an intervening Reset hits
the fatal double-registration Check — the second callback is neither queued
nor does it replace the first, the state is untouched. -/
theorem signal_writes_double_registration (s : SurfaceState) (c1 c2 : Nat)
    (hvalid : s.valid = true) (hnone : s.pendingCallback = none) :
    (SignalWritesFinished s c1).2 = SignalResult.registered ∧
    (SignalWritesFinished s c1).1.pendingCallback = some c1 ∧
    (SignalWritesFinished (SignalWritesFinished s c1).1 c2).2 =
      SignalResult.fatalDoubleRegistration ∧
    (SignalWritesFinished (SignalWritesFinished s c1).1 c2).1 =
      (SignalWritesFinished s c1).1 := by
  simp [SignalWritesFinished, hvalid, hnone]

/-- Witness for C4 on a concrete valid surface. -/
theorem signal_writes_double_registration_witness :
    (SignalWritesFinished (SignalWritesFinished
      { SurfaceState.init with valid := true } 1).1 2).2 =
      SignalResult.fatalDoubleRegistration :=
  (signal_writes_double_registration { SurfaceState.init with valid := true }
    1 2 rfl rfl).2.2.1

/-- C10: SignalWritesFinished on an invalid surface invokes the supplied
callback synchronously inside the call, changes nothing (in particular
registers nothing in the pending slot), and returns before the
double-registration Check — that fatal check can only fire on a valid
surface. -/
theorem signal_writes_invalid_contract (s : SurfaceState) (c : Nat)
    (h : s.valid = false) :
    SignalWritesFinished s c = (s, SignalResult.invokedImmediately c) ∧
    (∀ t : SurfaceState, ∀ d : Nat,
      (SignalWritesFinished t d).2 = SignalResult.fatalDoubleRegistration →
      t.valid = true) := by
  constructor
  · simp [SignalWritesFinished, h]
  · intro t d hf
    by_contra hv
    have htv : t.valid = false := by
      cases hx : t.valid
      · rfl
      · exact absurd hx hv
    simp [SignalWritesFinished, htv] at hf

/-- Witness for C10 on the freshly initialized (invalid) surface. -/
theorem signal_writes_invalid_contract_witness :
    SignalWritesFinished SurfaceState.init 5 =
      (SurfaceState.init, SignalResult.invokedImmediately 5) :=
  (signal_writes_invalid_contract SurfaceState.init 5 rfl).1

/-- C6: if re-arming either the acquire or the release event fails during
Reset, the surface is marked invalid (Reset is a total function here — it
never aborts, matching the source which only logs); when both re-arms
succeed, Reset leaves valid_ exactly as it found it. -/
theorem reset_rearm_validity (env : ResetEnv) (s : SurfaceState) :
    ((env.acquireSignalOk = false ∨ env.releaseSignalOk = false) →
      (Reset env s).1.valid = false) ∧
    (env.acquireSignalOk = true → env.releaseSignalOk = true →
      (Reset env s).1.valid = s.valid) := by
  rw [Reset_fst]
  constructor
  · intro h
    rcases h with h | h <;> simp [h]
  · intro h1 h2
    simp [h1, h2]

/-- Witness for C6 at a concrete failing re-arm. -/
theorem reset_rearm_validity_witness :
    (Reset ⟨false, true, semEnvOk⟩
      { SurfaceState.init with valid := true }).1.valid = false :=
  (reset_rearm_validity ⟨false, true, semEnvOk⟩
    { SurfaceState.init with valid := true }).1 (Or.inl rfl)

/-- C8: the destructor enqueues a release-resource command iff image_id_ is
nonzero (and only for that id), deregisters the buffer collection iff
buffer_id_ is nonzero (and only for that id), each independently of the
other; a surface that acquired neither id enqueues nothing at all. -/
theorem destructor_contract (s : SurfaceState) :
    (SessionCmd.releaseResource s.imageId ∈ destructor s ↔ s.imageId ≠ 0) ∧
    (SessionCmd.deregisterBufferCollection s.bufferId ∈ destructor s ↔
      s.bufferId ≠ 0) ∧
    (∀ i, SessionCmd.releaseResource i ∈ destructor s →
      i = s.imageId ∧ s.imageId ≠ 0) ∧
    (∀ i, SessionCmd.deregisterBufferCollection i ∈ destructor s →
      i = s.bufferId ∧ s.bufferId ≠ 0) ∧
    (s.imageId = 0 → s.bufferId = 0 → destructor s = []) := by
  unfold destructor
  by_cases hi : s.imageId = 0 <;> by_cases hb : s.bufferId = 0 <;>
    simp [hi, hb]

/-- Witness for C8 on a surface that never completed setup. -/
theorem destructor_contract_witness : destructor SurfaceState.init = [] :=
  (destructor_contract SurfaceState.init).2.2.2.2 rfl rfl

/-- C1: when Reset runs as triggered by a release-event signal (OnHandleReady
with an OK status), the pending-callback slot is empty afterwards; exactly
the one registered callback is invoked when one was pending and zero
callbacks are invoked otherwise (no abort on an absent callback); and when
one was pending the step trace ends with clearing the slot immediately
followed by the invocation, so the slot is cleared before the callback runs
and the callback runs last, after every other Reset step. -/
theorem reset_callback_contract (env : ResetEnv) (s : SurfaceState) :
    (OnHandleReady true env s).1.pendingCallback = none ∧
    ((OnHandleReady true env s).2.filter ResetStep.isInvoke =
      match s.pendingCallback with
      | some c => [ResetStep.invokeCallback c]
      | none => []) ∧
    (∀ c, s.pendingCallback = some c →
      ∃ pre, (OnHandleReady true env s).2 =
        pre ++ [ResetStep.clearCallbackSlot, ResetStep.invokeCallback c] ∧
        pre.filter ResetStep.isInvoke = []) := by
  have ho : OnHandleReady true env s = Reset env s := rfl
  rw [ho]
  refine ⟨rfl, ?_, ?_⟩
  · rw [Reset_snd]
    rcases hpc : s.pendingCallback with _ | c <;>
      cases hro : env.acquireSignalOk && env.releaseSignalOk <;>
      cases hcb : s.commandBuffer <;>
      simp [hpc, hro, hcb, ResetStep.isInvoke]
  · intro c hpc
    refine ⟨[ResetStep.rearmEvents] ++
      (if env.acquireSignalOk && env.releaseSignalOk then []
       else [ResetStep.markInvalid]) ++
      (if s.commandBuffer then
        [ResetStep.waitCommandBufferFence, ResetStep.clearCommandBuffer]
       else []) ++
      [ResetStep.resetFence, ResetStep.recreateAcquireSemaphore,
       ResetStep.armReleaseWait], ?_, ?_⟩
    · rw [Reset_snd, hpc]
      simp
    · cases hro : env.acquireSignalOk && env.releaseSignalOk <;>
        cases hcb : s.commandBuffer <;>
        simp [hro, hcb, ResetStep.isInvoke]

/-- Witness for C1 with a pending callback in a concrete state. -/
theorem reset_callback_contract_witness :
    ∃ pre, (OnHandleReady true ⟨true, true, semEnvOk⟩
        { SurfaceState.init with pendingCallback := some 7 }).2 =
      pre ++ [ResetStep.clearCallbackSlot, ResetStep.invokeCallback 7] ∧
      pre.filter ResetStep.isInvoke = [] :=
  (reset_callback_contract ⟨true, true, semEnvOk⟩
    { SurfaceState.init with pendingCallback := some 7 }).2.2 7 rfl

/-- C7: when AllocateDeviceMemory reaches the memory-type selection (all
earlier steps succeeded on a nonempty size), an empty intersection of the
driver-reported and collection-reported memory-type masks hits the fatal
FML_DCHECK assertion, and otherwise the memory type chosen for
vkAllocateMemory is a member of both masks — never an incompatible type. -/
theorem memory_type_selection_sound (env : AllocEnv) (size : SkISize)
    (b : Nat) (s : SurfaceState)
    (hsz : size.isEmpty = false)
    (h1 : env.allocateSharedCollectionOk = true)
    (h2 : env.duplicateTokenOk = true)
    (h3 : env.syncTokenOk = true)
    (h4 : env.createBufferCollectionOk = true)
    (h5 : env.setConstraintsOk = true)
    (h6 : env.createImageOk = true)
    (h7 : env.getPropertiesOk = true) :
    (env.memoryTypeBits &&& env.collectionMemoryTypeBits = 0 →
      (AllocateDeviceMemory env size b s).result = AllocResult.fatalAssert) ∧
    (env.memoryTypeBits &&& env.collectionMemoryTypeBits ≠ 0 →
      (AllocateDeviceMemory env size b s).state.memoryTypeIndex =
        some (ctz (env.memoryTypeBits &&& env.collectionMemoryTypeBits)) ∧
      Nat.testBit env.memoryTypeBits
        (ctz (env.memoryTypeBits &&& env.collectionMemoryTypeBits)) = true ∧
      Nat.testBit env.collectionMemoryTypeBits
        (ctz (env.memoryTypeBits &&& env.collectionMemoryTypeBits)) = true) := by
  have hred : AllocateDeviceMemory env size b s =
      ChooseMemoryTypeAndBind env size [SessionCmd.registerBufferCollection b]
        { s with bufferId := b } := by
    unfold AllocateDeviceMemory
    simp [hsz, h1, h2, h3, h4, h5, h6, h7, CreateVulkanImage]
  rw [hred]
  constructor
  · intro hb
    unfold ChooseMemoryTypeAndBind
    rw [if_pos hb]
  · intro hb
    have hand := ctz_testBit _ hb
    rw [Nat.testBit_and, Bool.and_eq_true] at hand
    refine ⟨?_, hand.1, hand.2⟩
    unfold ChooseMemoryTypeAndBind SetupSkiaSurface
    rw [if_neg hb]
    split_ifs <;> rfl

/-- Witness for C7 with masks 12 and 10 (intersection 8, bit 3 chosen). -/
theorem memory_type_selection_sound_witness :
    (AllocateDeviceMemory allocEnvOk ⟨640, 480⟩ 7
        SurfaceState.init).state.memoryTypeIndex = some (ctz (12 &&& 10)) :=
  ((memory_type_selection_sound allocEnvOk ⟨640, 480⟩ 7 SurfaceState.init
    (by decide) rfl rfl rfl rfl rfl rfl rfl).2 (by decide)).1

/-- C5: a surface whose construction left it valid reports via GetSize
exactly the pixel size requested at construction; every invalid surface
reports zero-by-zero regardless of the requested size or any residual
sk_surface_ size.  IsValid and GetSize are const methods: in this model
they are plain functions of the state, so neither can change it. -/
theorem get_size_contract (env : CtorEnv) (size : SkISize) (b : Nat)
    (hvalid : (construct env size b).state.valid = true) :
    GetSize (construct env size b).state = size ∧
    IsValid (construct env size b).state = true ∧
    (∀ t : SurfaceState, t.valid = false → GetSize t = SkISize.Make 0 0) := by
  refine ⟨?_, hvalid, ?_⟩
  · have h := construct_valid_state env size b hvalid
    simp [GetSize, hvalid, h.1]
  · intro t ht
    simp [GetSize, ht]

/-- Witness for C5 at a concrete fully successful construction. -/
theorem get_size_contract_witness :
    GetSize (construct ctorEnvOk ⟨640, 480⟩ 7).state = ⟨640, 480⟩ :=
  (get_size_contract ctorEnvOk ⟨640, 480⟩ 7 (by decide)).1

/-- C9: round-trip — after a successful construction, a successful flush of
the acquire/release fences, and a release-event signal whose Reset re-arms
both events successfully, the surface is valid again, its size is unchanged
(still the constructed size), its pending-callback slot is empty, and a
further flush cycle succeeds. -/
theorem round_trip_contract (env : CtorEnv) (size : SkISize) (b : Nat)
    (fenv : FlushEnv) (renv : ResetEnv)
    (hvalid : (construct env size b).state.valid = true)
    (hflush : (FlushSessionAcquireAndReleaseEvents fenv
      (construct env size b).state).2.2 = true)
    (ha : renv.acquireSignalOk = true) (hr : renv.releaseSignalOk = true) :
    (OnHandleReady true renv (FlushSessionAcquireAndReleaseEvents fenv
      (construct env size b).state).1).1.valid = true ∧
    GetSize (OnHandleReady true renv (FlushSessionAcquireAndReleaseEvents fenv
      (construct env size b).state).1).1 = size ∧
    (OnHandleReady true renv (FlushSessionAcquireAndReleaseEvents fenv
      (construct env size b).state).1).1.pendingCallback = none ∧
    (FlushSessionAcquireAndReleaseEvents ⟨true, true⟩
      (OnHandleReady true renv (FlushSessionAcquireAndReleaseEvents fenv
        (construct env size b).state).1).1).2.2 = true := by
  have hcs := construct_valid_state env size b hvalid
  have ho : OnHandleReady true renv (FlushSessionAcquireAndReleaseEvents fenv
      (construct env size b).state).1 =
      Reset renv (FlushSessionAcquireAndReleaseEvents fenv
        (construct env size b).state).1 := rfl
  rw [ho, Reset_fst, flush_true_fst fenv _ hflush]
  simp [ha, hr, GetSize, hvalid, hcs.1, FlushSessionAcquireAndReleaseEvents]

/-- Witness for C9 at a concrete fully successful cycle. -/
theorem round_trip_contract_witness :
    GetSize (OnHandleReady true ⟨true, true, semEnvOk⟩
      (FlushSessionAcquireAndReleaseEvents ⟨true, true⟩
        (construct ctorEnvOk ⟨640, 480⟩ 7).state).1).1 = ⟨640, 480⟩ :=
  (round_trip_contract ctorEnvOk ⟨640, 480⟩ 7 ⟨true, true⟩
    ⟨true, true, semEnvOk⟩ (by decide) (by decide) rfl rfl).2.1

end VulkanSurface

end VulkanSurfaceModel
